import Mathlib

/-
Verification of the strong-search session engine
(src/web/static/js/ui-helpers.js, module StrongSearch).

The definitions below are a shallow embedding of the JavaScript source.
DOM elements are modelled by an arena of log entries (`LogState.entries`,
indexed by creation order) together with the list of entry ids currently
present in the log container (`LogState.container`).  JavaScript object
maps with last-writer-wins assignment are modelled as association lists
where insertion conses at the front and lookup returns the first match.
JavaScript truthiness on strings and numbers is modelled explicitly
(`truthyStr`, `jsOrStr`, `jsOrNat`).  `Date.now()` is passed in as an
explicit `now` argument.
-/

set_option autoImplicit false

/-- JavaScript truthiness of an optional string field: present and nonempty. -/
def truthyStr (v : Option String) : Bool :=
  match v with
  | some s => s ≠ ""
  | none => false

/-- JavaScript `v || d` for an optional string: the default is taken when the
field is absent or the empty string (falsy). -/
def jsOrStr (v : Option String) (d : String) : String :=
  match v with
  | some s => if s = "" then d else s
  | none => d

/-- JavaScript `v || d` for an optional number: the default is taken when the
field is absent or `0` (falsy). -/
def jsOrNat (v : Option Nat) (d : Nat) : Nat :=
  match v with
  | some n => if n = 0 then d else n
  | none => d

/-- HTML escaping of one character, following the character map of
`escapeHtml` (the same map as `Utils.escapeHtml`; an identical local copy of
the function appears in the search module source). -/
def escapeChar (c : Char) : String :=
  if c = '&' then "&amp;"
  else if c = '<' then "&lt;"
  else if c = '>' then "&gt;"
  else if c = '"' then "&quot;"
  else if c = '\'' then "&#039;"
  else String.singleton c

/-- HTML escaping of a string (Utils.escapeHtml). -/
def escapeHtml (s : String) : String :=
  String.join (s.toList.map escapeChar)

/-- Modify the element at index `i` of a list in place (models mutating the
DOM node an association map points at). Out-of-range indices leave the list
unchanged. -/
def listModify {α : Type} (l : List α) (i : Nat) (f : α → α) : List α :=
  match l, i with
  | [], _ => []
  | a :: as, 0 => f a :: as
  | a :: as, n + 1 => a :: listModify as n f

/-- Structured payload of a tool-related log message:
`{tool_name, timestamp, parameters?, output_preview?, is_output?}`.
`parameters` holds the JSON-stringified parameters when present. -/
structure MsgObject where
  tool_name : Option String
  timestamp : Option Nat
  parameters : Option String
  output_preview : Option String
  is_output : Bool
  deriving Repr, DecidableEq

/-- An inbound log message, after JSON decoding.
`ofString` is a plain string (one that does not pass the tool-call JSON
sniff of source lines 628-668); `ofJsonToolCall o raw` is a string `raw`
that starts with a brace, contains a tool_name key and parses to the object
`o` (the sniffed branch); `ofObject` is a structured object; `ofOther`
is any other truthy primitive, carrying its `String(...)` rendering. -/
inductive LogMessage where
  | ofString (s : String)
  | ofJsonToolCall (o : MsgObject) (raw : String)
  | ofObject (o : MsgObject)
  | ofOther (s : String)
  deriving Repr, DecidableEq

/-- The rendered form of a log entry (the `formattedMessage` HTML of the
source, abstracted to its structure).  `textHtml` carries the escaped text;
the banner, thinking-box and JSON-pre renderings wrap their payload in
fixed nonempty HTML, so only `emptyRender` and `textHtml ""` render to an
empty `formattedMessage`. -/
inductive Render where
  | emptyRender
  | textHtml (s : String)
  | toolCallBanner (toolName : String) (params : String)
  | agentThinkingBox (body : String)
  | agentThinkingObj (o : MsgObject)
  | jsonPre (o : MsgObject)
  deriving Repr, DecidableEq

/-- Whether the rendered message is the empty string (the source drops the
entry when `formattedMessage.length > 0` fails, lines 705-719). -/
def htmlEmpty : Render → Bool
  | .emptyRender => true
  | .textHtml s => s = ""
  | _ => false

/-- One log entry (one DOM node of the log container): its level class,
its rendered message, and the tool-output slot that a correlated
`tool_output` message fills in later. -/
structure Entry where
  level : String
  render : Render
  toolOutput : Option String
  deriving Repr, DecidableEq

/-- State of the log subsystem: the arena of all retained entries (index =
entry id, in creation order), the ids currently in the log container
(oldest first), and the two correlation maps `toolCallMap` (exact key to
entry) and `toolCallsByName` (tool name to most recent call entry). -/
structure LogState where
  entries : List Entry
  container : List Nat
  toolCallMap : List (String × Nat)
  toolCallsByName : List (String × Nat)
  deriving Repr, DecidableEq

/-- The empty log state. -/
def emptyLogState : LogState :=
  { entries := [], container := [], toolCallMap := [], toolCallsByName := [] }

/-- What one `addStrongSearchLog` call did: merged an output into an
existing tool-call entry, appended a fresh standalone entry, or discarded
the message because it rendered empty. -/
inductive LogOutcome where
  | merged (entryId : Nat)
  | appended (entryId : Nat)
  | dropped
  deriving Repr, DecidableEq

/-- Correlation key for a tool call (source line 154-156). -/
def generateToolCallId (toolName : String) (timestamp : Nat) : String :=
  "tool-call-" ++ toolName ++ "-" ++ toString timestamp

/-- The eviction loop of the log container (source lines 712-715): while
more than 200 children remain, remove the first (oldest). -/
def evictOldest (c : List Nat) : List Nat :=
  match c with
  | [] => []
  | a :: as => if 200 < (a :: as).length then evictOldest as else a :: as

/-- Append an entry id at the end of the log container and run the
eviction loop (source lines 709-715). -/
def logPush (container : List Nat) (entryId : Nat) : List Nat :=
  evictOldest (container ++ [entryId])

/-- The correlation lookup for a structured `tool_output` message (source
lines 506-519): exact `(toolName, timestamp)` key first, then the most
recent call with the same tool name. Returns the id of the matched
tool-call entry, if any. -/
def lookupToolOutputTarget (st : LogState) (message : LogMessage)
    (level : String) (now : Nat) : Option Nat :=
  match message with
  | .ofObject o =>
      if level = "tool_output" then
        if truthyStr o.tool_name then
          let toolName := o.tool_name.getD ""
          let key := generateToolCallId toolName (jsOrNat o.timestamp now)
          match st.toolCallMap.lookup key with
          | some e => some e
          | none => st.toolCallsByName.lookup toolName
        else none
      else none
  | _ => none

/-- The output text attached on a successful correlation (source line 508):
`output_preview` with a placeholder default when absent or empty. -/
def outputPreviewOf (message : LogMessage) : String :=
  match message with
  | .ofObject o => jsOrStr o.output_preview "[无输出]"
  | _ => "[无输出]"

/-- Fill the tool-output slot of an entry (source lines 521-552). -/
def attachOutput (preview : String) (en : Entry) : Entry :=
  { en with toolOutput := some preview }

/-- The log state after a correlated tool output is attached to the
tool-call entry with id `e`: only that arena entry changes; the container
and both correlation maps are untouched. -/
def mergeOutput (st : LogState) (e : Nat) (preview : String) : LogState :=
  { st with entries := listModify st.entries e (attachOutput preview) }

/-- Characterization of the log frames that produce no record at all:
a structured message with a truthy tool name whose level is not
`tool_call` and which does not correlate as a tool output, a tool-call
JSON string that parsed without a truthy tool name and whose raw text is
empty, or a message that renders to an empty string. -/
def discardsLogFrame (st : LogState) (message : LogMessage) (level : String)
    (now : Nat) : Bool :=
  match message with
  | .ofObject o =>
      truthyStr o.tool_name && !(level == "tool_call") &&
        (lookupToolOutputTarget st (.ofObject o) level now).isNone
  | .ofString s => s == "" && !(level == "agent_thinking")
  | .ofJsonToolCall o raw =>
      !(level == "agent_thinking") && !truthyStr o.tool_name && raw == ""
  | .ofOther s => s == ""

/-- Message formatting (source lines 562-681): produces the rendered
message and, for the two tool-call branches, the `(key, toolName)`
registration that the source stores into `toolCallMap` and
`toolCallsByName` (lines 596-601 and 661-666).  A structured message with
a truthy tool name at any level other than `tool_call` takes no formatting
branch, so it renders empty; the `tool_call_decision` branch is an explicit
no-op in the source (line 571-572). -/
def formatLogMessage (message : LogMessage) (level : String) (now : Nat) :
    Render × Option (String × String) :=
  match message with
  | .ofObject o =>
      if truthyStr o.tool_name then
        if level = "tool_call_decision" then (.emptyRender, none)
        else if level = "tool_call" then
          let toolName := o.tool_name.getD ""
          let params := o.parameters.getD "\x7b\x7d"
          let key := generateToolCallId toolName (jsOrNat o.timestamp now)
          (.toolCallBanner toolName params, some (key, toolName))
        else (.emptyRender, none)
      else if level = "agent_thinking" then (.agentThinkingObj o, none)
      else (.jsonPre o, none)
  | .ofString s =>
      if level = "agent_thinking" then (.agentThinkingBox (escapeHtml s), none)
      else (.textHtml (escapeHtml s), none)
  | .ofJsonToolCall o raw =>
      if level = "agent_thinking" then (.agentThinkingBox (escapeHtml raw), none)
      else if truthyStr o.tool_name then
        let toolName := o.tool_name.getD ""
        let params := o.parameters.getD "\x7b\x7d"
        let key := generateToolCallId toolName (jsOrNat o.timestamp now)
        (.toolCallBanner toolName params, some (key, toolName))
      else (.textHtml (escapeHtml raw), none)
  | .ofOther s => (.textHtml (escapeHtml s), none)

/-- The log appender `addStrongSearchLog` (source lines 496-720).
A structured `tool_output` message first tries to correlate with a stored
tool call; on success the output is attached to that entry and nothing is
appended (early return, line 555).  Otherwise the message is formatted;
an empty rendering is discarded (guard at line 705), and a nonempty one is
appended to the container (with FIFO eviction) and, for a tool-call
banner, registered in both correlation maps. -/
def addStrongSearchLog (st : LogState) (message : LogMessage)
    (level : String) (now : Nat) : LogState × LogOutcome :=
  match lookupToolOutputTarget st message level now with
  | some e =>
      ({ st with
          entries := listModify st.entries e (attachOutput (outputPreviewOf message)) },
        .merged e)
  | none =>
      let fm := formatLogMessage message level now
      if htmlEmpty fm.1 then (st, .dropped)
      else
        let newId := st.entries.length
        let entry : Entry := { level := level, render := fm.1, toolOutput := none }
        let st1 : LogState :=
          { st with
              entries := st.entries ++ [entry],
              container := logPush st.container newId }
        match fm.2 with
        | some kn =>
            ({ st1 with
                toolCallMap := (kn.1, newId) :: st1.toolCallMap,
                toolCallsByName := (kn.2, newId) :: st1.toolCallsByName },
              .appended newId)
        | none => (st1, .appended newId)

/-- WebSocket readyState values that the module observes. -/
inductive ReadyState where
  | CONNECTING
  | OPEN
  deriving Repr, DecidableEq

/-- An observable external effect of the engine: the client-id HTTP
request, opening the WebSocket, sending the search frame, closing the
socket, and the batch file-content request. -/
inductive Event where
  | newClientIdRequest
  | wsOpen (clientId : String)
  | wsSend (codebase : String) (query : String)
  | wsClose
  | batchFetch (codebase : String) (files : List String)
  deriving Repr, DecidableEq

/-- The assembled final result view (answer, file list, and the per-file
content text rendered into the relevant-files list). -/
structure ResultView where
  answer : Option String
  files : List String
  fileContents : List (String × String)
  executionTime : ℚ
  deriving Repr, DecidableEq

/-- The module-level session state: the socket variable and its
readyState, the stored client id, the `isStrongSearching` flag, the
current codebase, the connection-status indicator, the log state, the
progress bar, and the rendered result. -/
structure SessionState where
  socket : Option ReadyState
  clientId : Option String
  searching : Bool
  codebase : Option String
  connStatus : String
  log : LogState
  progressPercent : Int
  progressStatus : String
  resultView : Option ResultView
  deriving Repr, DecidableEq

/-- JavaScript `Math.round`: round half away from negative infinity,
i.e. the floor of the argument plus one half. -/
def jsRound (q : ℚ) : Int := ⌊q + 1 / 2⌋

/-- The percent computation of the progress bar (source line 725):
`Math.max(0, Math.min(100, Math.round(progress * 100)))`. -/
def displayPercent (progress : ℚ) : Int :=
  max 0 (min 100 (jsRound (progress * 100)))

/-- `updateStrongSearchProgressBar` (source lines 723-731): stores the
clamped percent; the status text is written to the title attribute only
when truthy (nonempty). -/
def updateStrongSearchProgressBar (st : SessionState) (progress : ℚ)
    (status : String) : SessionState :=
  { st with
      progressPercent := displayPercent progress,
      progressStatus := if status = "" then st.progressStatus else status }

/-- One-session log append lifted to the session state. -/
def sessionLog (st : SessionState) (message : LogMessage) (level : String)
    (now : Nat) : SessionState :=
  { st with log := (addStrongSearchLog st.log message level now).1 }

/-- Environment outcomes for one connection attempt: the result of the
`new_client_id` request (`none` is an acquisition failure) and whether the
freshly created socket fires `onopen` (`true`) or `onerror` (`false`). -/
structure ConnectOracle where
  acquire : Option String
  socketOpens : Bool
  deriving Repr, DecidableEq

/-- How `connectStrongSearchWebSocket` finished: the promise resolved with
`true`, the function returned `false` from its catch block (client-id
acquisition failed), or the promise was rejected (socket error). -/
inductive ConnectResult where
  | ok
  | returnedFalse
  | rejected
  deriving Repr, DecidableEq

/-- `connectStrongSearchWebSocket` (source lines 383-446) together with
`getStrongSearchClientId` (lines 369-380).  If the socket is already open
it returns `true` immediately.  Otherwise it requests a client id; on
failure the id helper logs an error and rethrows, and the connect catch
block returns `false` without any socket being created.  With an id, a
socket is created (the connection attempt) and the open or error handler
runs per the oracle. -/
def connectStrongSearchWebSocket (st : SessionState) (oracle : ConnectOracle)
    (now : Nat) : SessionState × List Event × ConnectResult :=
  if st.socket = some ReadyState.OPEN then (st, [], .ok)
  else
    match oracle.acquire with
    | none =>
        let st1 := sessionLog st (.ofString "无法获取客户端ID: API请求失败") "error" now
        ({ st1 with connStatus := "disconnected" }, [Event.newClientIdRequest],
          .returnedFalse)
    | some cid =>
        let st1 := { st with clientId := some cid, connStatus := "connecting" }
        let st2 := { st1 with socket := some ReadyState.CONNECTING }
        if oracle.socketOpens then
          let st3 := sessionLog
            { st2 with socket := some ReadyState.OPEN, connStatus := "connected" }
            (.ofString "WebSocket连接成功") "success" now
          (st3, [Event.newClientIdRequest, Event.wsOpen cid], .ok)
        else
          let st3 := sessionLog { st2 with connStatus := "disconnected" }
            (.ofString "WebSocket连接错误") "error" now
          ({ st3 with searching := false, socket := none },
            [Event.newClientIdRequest, Event.wsOpen cid], .rejected)

/-- `disconnectStrongSearchWebSocket` (source lines 449-457): closes the
socket when one exists, clears the socket and client id, and marks the
status disconnected. -/
def disconnectStrongSearchWebSocket (st : SessionState) :
    SessionState × List Event :=
  match st.socket with
  | some _ =>
      ({ st with socket := none, clientId := none, connStatus := "disconnected" },
        [Event.wsClose])
  | none => (st, [])

/-- `stopStrongSearch` (source lines 1044-1051): a no-op unless a search is
running; otherwise logs a warning, disconnects, clears the searching flag,
and resets the progress bar to zero with a stopped status. -/
def stopStrongSearch (st : SessionState) (now : Nat) :
    SessionState × List Event :=
  if st.searching then
    let st1 := sessionLog st (.ofString "正在尝试停止搜索...") "warning" now
    let d := disconnectStrongSearchWebSocket st1
    let st2 := { d.1 with searching := false }
    (updateStrongSearchProgressBar st2 0 "搜索已停止", d.2)
  else (st, [])

/-- JavaScript `String.prototype.trim()`: strip whitespace from both ends
of the string. -/
def jsTrim (s : String) : String :=
  ⟨((s.data.dropWhile Char.isWhitespace).reverse.dropWhile Char.isWhitespace).reverse⟩

/-- Shared failure tail of `startStrongSearch` (its catch block, source
lines 1035-1040): log the failure and clear the searching flag. -/
def startSearchFail (st : SessionState) (msg : String) (now : Nat)
    (evs : List Event) : SessionState × List Event :=
  ({ sessionLog st (.ofString msg) "error" now with searching := false }, evs)

/-- `startStrongSearch` (source lines 991-1041).  Returns immediately when
already searching or no codebase is selected; warns on an empty query.
Otherwise it logs the search banner lines, resets the progress bar, sets
the searching flag, connects (the connect attempt itself acquires the id
and opens the socket), and sends the search frame only when the socket is
open; every failure is caught, logged, and clears the searching flag. -/
def startStrongSearch (st : SessionState) (query : String)
    (oracle : ConnectOracle) (now : Nat) : SessionState × List Event :=
  if st.searching then (st, [])
  else
    match st.codebase with
    | none => (st, [])
    | some cb =>
        let q := jsTrim query
        if q = "" then
          (sessionLog st (.ofString "请输入查询内容") "warning" now, [])
        else
          let st1 := sessionLog st
            (.ofString "--------- 新的搜索开始 ---------") "info" now
          let st2 := updateStrongSearchProgressBar st1 0 "准备搜索..."
          let st3 := sessionLog st2
            (.ofString ("准备开始强效搜索: \"" ++ q ++ "\"")) "info" now
          let st4 := { st3 with searching := true }
          let c := connectStrongSearchWebSocket st4 oracle now
          match c.2.2 with
          | .ok =>
              if c.1.socket = some ReadyState.OPEN then
                let st5 := sessionLog c.1 (.ofString "搜索请求已发送") "info" now
                (updateStrongSearchProgressBar st5 (5 / 100) "请求已发送...",
                  c.2.1 ++ [Event.wsSend cb q])
              else
                startSearchFail c.1 "启动搜索失败: WebSocket未连接，无法发送请求" now c.2.1
          | .returnedFalse =>
              startSearchFail c.1 "启动搜索失败: WebSocket连接失败" now c.2.1
          | .rejected =>
              startSearchFail c.1 "启动搜索失败: WebSocket连接失败" now c.2.1

/-- The payload of a `result` frame:
`{answer, relevant_files, project_structure?, execution_time}`. -/
structure ResultPayload where
  answer : Option String
  relevant_files : Option (List String)
  project_structure : Option String
  execution_time : Option ℚ
  deriving Repr, DecidableEq

/-- Environment outcome of the single batch content request: an HTTP 200
with a contents map, a non-OK HTTP response, or a network error. -/
inductive BatchOutcome where
  | ok (contents : List (String × String))
  | httpError
  | networkError
  deriving Repr, DecidableEq

/-- The content text rendered for one file from the fetched contents map
(source line 925): the fetched string, or a placeholder when the file is
absent from the map (or its content is the empty string, which is falsy). -/
def renderedFileContent (contents : List (String × String)) (f : String) :
    String :=
  jsOrStr (contents.lookup f) "无法加载内容。"

/-- `displayStrongSearchResult` (source lines 734-988), reduced to its
observable effects: when there are relevant files and a codebase, one
batch request is made for all of them; a non-OK response or network error
maps every file to an error string; each file then renders its looked-up
content (placeholder when missing).  The result view is assembled and a
success log line is appended in every case. -/
def displayStrongSearchResult (st : SessionState) (r : ResultPayload)
    (batch : BatchOutcome) (now : Nat) : SessionState × List Event :=
  let files := r.relevant_files.getD []
  let fetched : List (String × String) × List Event :=
    if files = [] then ([], [])
    else
      match st.codebase with
      | some cb =>
          (match batch with
            | .ok contents => contents
            | .httpError => files.map (fun f => (f, "错误: 无法加载内容"))
            | .networkError => files.map (fun f => (f, "错误: 加载内容时发生网络错误")),
            [Event.batchFetch cb files])
      | none =>
          (files.map (fun f => (f, "无法加载内容 (未提供代码库名称或文件列表)")), [])
  let view : ResultView :=
    { answer := r.answer,
      files := files,
      fileContents := files.map (fun f => (f, renderedFileContent fetched.1 f)),
      executionTime := r.execution_time.getD 0 }
  let st1 := { st with resultView := some view }
  (sessionLog st1 (.ofString "搜索完成，结果已显示") "success" now, fetched.2)

/-- An inbound frame after JSON decoding, tagged by its `type`
discriminant; `unknownMsg` covers any other discriminant and carries the
stringified frame. -/
inductive Frame where
  | logMsg (level : Option String) (message : Option LogMessage)
  | progressMsg (progress : ℚ) (status : Option String)
  | resultMsg (r : ResultPayload)
  | errorMsg (error : String)
  | unknownMsg (s : String)
  deriving Repr, DecidableEq

/-- JavaScript `data.message || ''` at the dispatcher (source line 465):
an absent message becomes the empty string. -/
def jsMessageOr (m : Option LogMessage) : LogMessage :=
  match m with
  | none => .ofString ""
  | some x => x

/-- `handleStrongSearchWebSocketMessage` (source lines 460-493): routes a
frame by type.  Log frames go to the log appender; progress frames update
the bar; a result frame is displayed and ends the search; an error frame
is logged and ends the search; an unknown frame logs a warning. -/
def handleStrongSearchWebSocketMessage (st : SessionState) (frame : Frame)
    (batch : BatchOutcome) (now : Nat) : SessionState × List Event :=
  match frame with
  | .logMsg level message =>
      (sessionLog st (jsMessageOr message) (level.getD "") now, [])
  | .progressMsg p status =>
      (updateStrongSearchProgressBar st p (status.getD ""), [])
  | .resultMsg r =>
      let d := displayStrongSearchResult st r batch now
      ({ d.1 with searching := false }, d.2)
  | .errorMsg e =>
      ({ sessionLog st (.ofString e) "error" now with searching := false }, [])
  | .unknownMsg s =>
      (sessionLog st (.ofString ("收到未知消息: " ++ s)) "warning" now, [])

/-- An idle session: no socket, not searching, a codebase selected, empty
log. -/
def idleSession : SessionState :=
  { socket := none, clientId := none, searching := false, codebase := some "repo1",
    connStatus := "disconnected", log := emptyLogState, progressPercent := 0,
    progressStatus := "", resultView := none }

/-- A session in the middle of a search with an open socket. -/
def searchingSession : SessionState :=
  { idleSession with
      searching := true
      socket := some ReadyState.OPEN
      clientId := some "abc123"
      connStatus := "connected" }

/-- A log state holding one registered tool-call banner entry for the tool
`grep` with timestamp 1000, as left behind by a `tool_call` frame. -/
def c1State : LogState :=
  { entries := [⟨"tool_call", .toolCallBanner "grep" "\x7b\x7d", none⟩],
    container := [0],
    toolCallMap := [("tool-call-grep-1000", 0)],
    toolCallsByName := [("grep", 0)] }

/-- A structured tool-output message for `grep` with timestamp 1000. -/
def c1Output : MsgObject :=
  { tool_name := some "grep", timestamp := some 1000, parameters := none,
    output_preview := some "no matches", is_output := false }

/-- A sample result payload with two relevant files. -/
def demoResult : ResultPayload :=
  { answer := some "X", relevant_files := some ["a.py", "b.py"],
    project_structure := none, execution_time := some (123 / 100) }

/-- A sample batch-fetch contents map that covers only one of the two
requested files. -/
def demoContents : List (String × String) :=
  [("a.py", "print(1)")]

/-- The eviction loop drops exactly the oldest elements beyond capacity. -/
theorem evictOldest_eq_drop (l : List Nat) :
    evictOldest l = List.drop (l.length - 200) l := by
  induction l with
  | nil => rfl
  | cons a as ih =>
      rw [evictOldest]
      by_cases h : 200 < (a :: as).length
      · rw [if_pos h, ih]
        have h2 : (a :: as).length - 200 = (as.length - 200) + 1 := by
          simp only [List.length_cons] at h ⊢; omega
        rw [h2, List.drop_succ_cons]
      · rw [if_neg h]
        have h2 : (a :: as).length - 200 = 0 := by
          simp only [List.length_cons] at h ⊢; omega
        rw [h2, List.drop_zero]

/-- One container push keeps a suffix of the appended list: insertion order
of the survivors is preserved and only the oldest entries are evicted. -/
theorem logPush_eq_drop (c : List Nat) (i : Nat) :
    logPush c i = List.drop ((c.length + 1) - 200) (c ++ [i]) := by
  rw [logPush, evictOldest_eq_drop]
  simp

/-- The container size after a push is the incoming size plus one, capped
at the capacity of 200. -/
theorem logPush_length (c : List Nat) (i : Nat) :
    (logPush c i).length = min (c.length + 1) 200 := by
  rw [logPush_eq_drop, List.length_drop]
  simp only [List.length_append, List.length_cons, List.length_nil]
  omega

/-- Every log append leaves the container either untouched (merge or
discard) or pushed through the capacity-bounded `logPush`. -/
theorem addLog_container_cases (st : LogState) (m : LogMessage) (lv : String) (now : Nat) :
    ((addStrongSearchLog st m lv now).1).container = st.container ∨
    ((addStrongSearchLog st m lv now).1).container = logPush st.container st.entries.length := by
  unfold addStrongSearchLog
  split
  · left; rfl
  · by_cases hf : htmlEmpty (formatLogMessage m lv now).1 = true
    · left; simp [hf]
    · rcases h2 : (formatLogMessage m lv now).2 with _ | kn
      · right; simp [hf, h2]
      · right; simp [hf, h2]

/-- The capacity invariant is preserved by every log mutation. -/
theorem capacity_preserved (st : LogState) (m : LogMessage) (lv : String) (now : Nat)
    (h : st.container.length ≤ 200) :
    ((addStrongSearchLog st m lv now).1).container.length ≤ 200 := by
  rcases addLog_container_cases st m lv now with hc | hc <;> rw [hc]
  · exact h
  · rw [logPush_length]; omega

/-- Escaping one character never yields the empty string. -/
theorem escapeChar_ne_nil (c : Char) : (escapeChar c).data ≠ [] := by
  unfold escapeChar
  split_ifs <;> first | decide | simp [String.singleton]

/-- The HTML escape of a string is empty exactly when the string is. -/
theorem escapeHtml_eq_empty_iff (s : String) : escapeHtml s = "" ↔ s = "" := by
  constructor
  · intro h
    cases s with
    | mk l =>
      cases l with
      | nil => rfl
      | cons c cs =>
        exfalso
        unfold escapeHtml at h
        rw [String.join_eq] at h
        have hd := congrArg String.data h
        simp [List.flatten_eq_nil_iff] at hd
        exact escapeChar_ne_nil c hd.1
  · intro h
    subst h
    rfl

/-- Effect of a `tool_call` frame with a truthy tool name: a banner entry
is appended and registered in both correlation maps at the fresh entry id,
superseding any previous registration for the same key or name. -/
theorem addLog_toolCall_registers (st : LogState) (o : MsgObject) (now : Nat)
    (hname : truthyStr o.tool_name = true) :
    addStrongSearchLog st (.ofObject o) "tool_call" now =
      ({ entries := st.entries ++
            [{ level := "tool_call",
               render := .toolCallBanner (o.tool_name.getD "") (o.parameters.getD "\x7b\x7d"),
               toolOutput := none }],
         container := logPush st.container st.entries.length,
         toolCallMap :=
           (generateToolCallId (o.tool_name.getD "") (jsOrNat o.timestamp now),
             st.entries.length) :: st.toolCallMap,
         toolCallsByName :=
           (o.tool_name.getD "", st.entries.length) :: st.toolCallsByName },
        .appended st.entries.length) := by
  unfold addStrongSearchLog lookupToolOutputTarget formatLogMessage
  simp [hname, htmlEmpty]

/-- A structured `tool_output` whose exact correlation key is registered
merges into that entry; nothing is appended and the maps are unchanged. -/
theorem addLog_toolOutput_exactKey (st : LogState) (o : MsgObject) (now : Nat) (e : Nat)
    (hname : truthyStr o.tool_name = true)
    (hkey : st.toolCallMap.lookup
        (generateToolCallId (o.tool_name.getD "") (jsOrNat o.timestamp now)) = some e) :
    addStrongSearchLog st (.ofObject o) "tool_output" now =
      (mergeOutput st e (jsOrStr o.output_preview "[无输出]"), .merged e) := by
  unfold addStrongSearchLog lookupToolOutputTarget mergeOutput
  simp [hname, hkey, outputPreviewOf]

/-- A structured `tool_output` with no exact key match merges into the most
recently registered call of the same tool name when one exists. -/
theorem addLog_toolOutput_nameFallback (st : LogState) (o : MsgObject) (now : Nat) (e : Nat)
    (hname : truthyStr o.tool_name = true)
    (hkey : st.toolCallMap.lookup
        (generateToolCallId (o.tool_name.getD "") (jsOrNat o.timestamp now)) = none)
    (hby : st.toolCallsByName.lookup (o.tool_name.getD "") = some e) :
    addStrongSearchLog st (.ofObject o) "tool_output" now =
      (mergeOutput st e (jsOrStr o.output_preview "[无输出]"), .merged e) := by
  unfold addStrongSearchLog lookupToolOutputTarget mergeOutput
  simp [hname, hkey, hby, outputPreviewOf]

/-- An append of a plain nonempty string message at a level other than
`agent_thinking` appends exactly one text entry. -/
theorem addLog_plainString (st : LogState) (s lv : String) (now : Nat)
    (hs : s ≠ "") (hlv : lv ≠ "agent_thinking") :
    addStrongSearchLog st (.ofString s) lv now =
      ({ st with
          entries := st.entries ++
            [{ level := lv, render := .textHtml (escapeHtml s), toolOutput := none }],
          container := logPush st.container st.entries.length },
        .appended st.entries.length) := by
  unfold addStrongSearchLog lookupToolOutputTarget formatLogMessage
  simp [hlv, htmlEmpty, escapeHtml_eq_empty_iff, hs]

/-- Arena growth of a plain-string append. -/
theorem addLog_plainString_length (st : LogState) (s lv : String) (now : Nat)
    (hs : s ≠ "") (hlv : lv ≠ "agent_thinking") :
    ((addStrongSearchLog st (.ofString s) lv now).1).entries.length =
      st.entries.length + 1 := by
  rw [addLog_plainString st s lv now hs hlv]
  simp

/-- A string append with a nonempty left part is nonempty. -/
theorem append_ne_empty_left (a b : String) (h : a ≠ "") : a ++ b ≠ "" := by
  intro hc
  have hd := congrArg String.data hc
  rw [String.data_append] at hd
  simp at hd
  apply h
  cases a
  simp_all

/-- A log frame is discarded exactly when `discardsLogFrame` says so. -/
theorem addLog_dropped_iff (st : LogState) (m : LogMessage) (lv : String) (now : Nat) :
    (addStrongSearchLog st m lv now).2 = .dropped ↔
      discardsLogFrame st m lv now = true := by
  cases m with
  | ofObject o =>
      by_cases ht : truthyStr o.tool_name = true
      · by_cases hc : lv = "tool_call"
        · subst hc
          have hfmt : formatLogMessage (.ofObject o) "tool_call" now =
              (.toolCallBanner (o.tool_name.getD "") (o.parameters.getD "\x7b\x7d"),
                some (generateToolCallId (o.tool_name.getD "") (jsOrNat o.timestamp now),
                  o.tool_name.getD "")) := by
            unfold formatLogMessage
            simp [ht]
          unfold addStrongSearchLog lookupToolOutputTarget discardsLogFrame
          simp [ht, hfmt, htmlEmpty]
        · rcases hl : lookupToolOutputTarget st (.ofObject o) lv now with _ | e
          · have hfmt : formatLogMessage (.ofObject o) lv now = (.emptyRender, none) := by
              unfold formatLogMessage
              simp only [ht, if_true]
              split_ifs <;> simp_all
            unfold addStrongSearchLog discardsLogFrame
            simp [ht, hfmt, hl, htmlEmpty, hc]
          · unfold addStrongSearchLog discardsLogFrame
            simp [ht, hl]
      · have hlk : lookupToolOutputTarget st (.ofObject o) lv now = none := by
          unfold lookupToolOutputTarget
          simp [ht]
        by_cases ha : lv = "agent_thinking"
        · have hfmt : formatLogMessage (.ofObject o) lv now = (.agentThinkingObj o, none) := by
            unfold formatLogMessage
            simp [ht, ha]
          unfold addStrongSearchLog discardsLogFrame
          simp [ht, hfmt, hlk, htmlEmpty]
        · have hfmt : formatLogMessage (.ofObject o) lv now = (.jsonPre o, none) := by
            unfold formatLogMessage
            simp [ht, ha]
          unfold addStrongSearchLog discardsLogFrame
          simp [ht, hfmt, hlk, htmlEmpty]
  | ofString str =>
      by_cases ha : lv = "agent_thinking"
      · unfold addStrongSearchLog lookupToolOutputTarget formatLogMessage discardsLogFrame
        simp [ha, htmlEmpty]
      · unfold addStrongSearchLog lookupToolOutputTarget formatLogMessage discardsLogFrame
        simp only [ha, htmlEmpty, escapeHtml_eq_empty_iff, if_false, ite_false, if_neg,
          Bool.and_eq_true, beq_iff_eq, Bool.not_eq_true]
        simp [ha, escapeHtml_eq_empty_iff]
        split_ifs <;> simp_all
  | ofJsonToolCall o raw =>
      by_cases ha : lv = "agent_thinking"
      · unfold addStrongSearchLog lookupToolOutputTarget formatLogMessage discardsLogFrame
        simp [ha, htmlEmpty]
      · by_cases ht : truthyStr o.tool_name = true
        · unfold addStrongSearchLog lookupToolOutputTarget formatLogMessage discardsLogFrame
          simp [ha, ht, htmlEmpty]
        · unfold addStrongSearchLog lookupToolOutputTarget formatLogMessage discardsLogFrame
          simp [ha, ht, escapeHtml_eq_empty_iff]
          split_ifs <;> simp_all [htmlEmpty, escapeHtml_eq_empty_iff]
  | ofOther str =>
      unfold addStrongSearchLog lookupToolOutputTarget formatLogMessage discardsLogFrame
      simp [htmlEmpty, escapeHtml_eq_empty_iff]
      split_ifs <;> simp_all

/-- Every log append either discards and leaves the state unchanged, merges
into an existing entry without touching the container, or appends the fresh
entry id through the capacity-bounded push. -/
theorem addLog_outcome_cases (st : LogState) (m : LogMessage) (lv : String) (now : Nat) :
    ((addStrongSearchLog st m lv now).2 = .dropped ∧
      (addStrongSearchLog st m lv now).1 = st) ∨
    (∃ e, (addStrongSearchLog st m lv now).2 = .merged e ∧
      (addStrongSearchLog st m lv now).1.container = st.container) ∨
    ((addStrongSearchLog st m lv now).2 = .appended st.entries.length ∧
      (addStrongSearchLog st m lv now).1.container =
        logPush st.container st.entries.length) := by
  unfold addStrongSearchLog
  split
  · right; left; exact ⟨_, rfl, rfl⟩
  · by_cases hf : htmlEmpty (formatLogMessage m lv now).1 = true
    · left; simp [hf]
    · right; right
      rcases h2 : (formatLogMessage m lv now).2 with _ | kn <;> simp [hf, h2]

/-- The progress bar clamp sends a zero fraction to a zero percent. -/
theorem displayPercent_zero : displayPercent 0 = 0 := by
  unfold displayPercent jsRound
  have e : (⌊(0 : ℚ) * 100 + 1 / 2⌋ : ℤ) = 0 := by
    rw [Int.floor_eq_iff]
    constructor <;> norm_num
  rw [e]
  decide

/-- Clamping after rounding (the source order) agrees with rounding after
clamping (the specified order) for every rational fraction. -/
theorem displayPercent_clamp (f : ℚ) :
    displayPercent f = jsRound (min 1 (max 0 f) * 100) := by
  unfold displayPercent jsRound
  rcases le_or_lt f 0 with h0 | h0
  · have hmax : max 0 f = 0 := max_eq_left h0
    rw [hmax]
    have h1 : (⌊f * 100 + 1 / 2⌋ : ℤ) < 1 := by
      rw [Int.floor_lt]
      push_cast
      nlinarith
    rw [min_eq_right (by omega : (⌊f * 100 + 1 / 2⌋ : ℤ) ≤ 100)]
    rw [max_eq_left (by omega : (⌊f * 100 + 1 / 2⌋ : ℤ) ≤ 0)]
    rw [show min (1 : ℚ) 0 = 0 by norm_num]
    symm
    rw [show ((0 : ℚ) * 100 + 1 / 2) = 1 / 2 by ring, Int.floor_eq_iff]
    constructor <;> norm_num
  · rcases le_or_lt 1 f with h1 | h1
    · have hmin : min 1 (max 0 f) = 1 := by
        rw [max_eq_right (le_of_lt h0)]; exact min_eq_left h1
      rw [hmin]
      have hge : (100 : ℤ) ≤ ⌊f * 100 + 1 / 2⌋ := by
        rw [Int.le_floor]
        push_cast
        nlinarith
      rw [min_eq_left hge, max_eq_right (by omega : (0 : ℤ) ≤ 100)]
      symm
      rw [show ((1 : ℚ) * 100 + 1 / 2) = 100 + 1 / 2 by ring, Int.floor_eq_iff]
      constructor <;> push_cast <;> norm_num
    · have hmin : min 1 (max 0 f) = f := by
        rw [max_eq_right (le_of_lt h0)]; exact min_eq_right (le_of_lt h1)
      rw [hmin]
      have hge : (0 : ℤ) ≤ ⌊f * 100 + 1 / 2⌋ := by
        rw [Int.le_floor]; push_cast; nlinarith
      have hle : (⌊f * 100 + 1 / 2⌋ : ℤ) ≤ 100 := by
        have : (⌊f * 100 + 1 / 2⌋ : ℤ) < 101 := by
          rw [Int.floor_lt]; push_cast; nlinarith
        omega
      rw [min_eq_right hle, max_eq_right hge]

/-- The three example fractions of the specification. -/
theorem displayPercent_examples :
    displayPercent (-(2 : ℚ) / 10) = 0 ∧
    displayPercent ((15 : ℚ) / 10) = 100 ∧
    displayPercent ((5 : ℚ) / 10) = 50 := by
  have e1 : (⌊(-(2 : ℚ) / 10) * 100 + 1 / 2⌋ : ℤ) = -20 := by
    rw [Int.floor_eq_iff]
    constructor <;> norm_num
  have e2 : (⌊((15 : ℚ) / 10) * 100 + 1 / 2⌋ : ℤ) = 150 := by
    rw [Int.floor_eq_iff]
    constructor <;> norm_num
  have e3 : (⌊((5 : ℚ) / 10) * 100 + 1 / 2⌋ : ℤ) = 50 := by
    rw [Int.floor_eq_iff]
    constructor <;> norm_num
  refine ⟨?_, ?_, ?_⟩ <;> unfold displayPercent jsRound
  · rw [e1]; decide
  · rw [e2]; decide
  · rw [e3]; decide

/-- Claim C1: a `tool_output` frame whose (toolName, timestamp) key is
registered attaches its output to the already-stored tool-call record —
one merged entry, container and maps untouched, no standalone append;
when the exact key is absent but the name is registered, it attaches to
the most recently registered call for that name; exact-key match always
takes precedence because it is consulted first regardless of the name map;
and a `tool_call` frame registers the fresh entry under both its exact key
and its name (last writer wins). -/
theorem toolOutput_correlation_policy :
    (∀ (st : LogState) (o : MsgObject) (now e : Nat),
        truthyStr o.tool_name = true →
        st.toolCallMap.lookup
            (generateToolCallId (o.tool_name.getD "") (jsOrNat o.timestamp now)) = some e →
        addStrongSearchLog st (.ofObject o) "tool_output" now =
          (mergeOutput st e (jsOrStr o.output_preview "[无输出]"), .merged e)) ∧
    (∀ (st : LogState) (o : MsgObject) (now e : Nat),
        truthyStr o.tool_name = true →
        st.toolCallMap.lookup
            (generateToolCallId (o.tool_name.getD "") (jsOrNat o.timestamp now)) = none →
        st.toolCallsByName.lookup (o.tool_name.getD "") = some e →
        addStrongSearchLog st (.ofObject o) "tool_output" now =
          (mergeOutput st e (jsOrStr o.output_preview "[无输出]"), .merged e)) ∧
    (∀ (st : LogState) (o : MsgObject) (now : Nat),
        truthyStr o.tool_name = true →
        ((addStrongSearchLog st (.ofObject o) "tool_call" now).1.toolCallMap.lookup
            (generateToolCallId (o.tool_name.getD "") (jsOrNat o.timestamp now)) =
              some st.entries.length ∧
          (addStrongSearchLog st (.ofObject o) "tool_call" now).1.toolCallsByName.lookup
            (o.tool_name.getD "") = some st.entries.length ∧
          (addStrongSearchLog st (.ofObject o) "tool_call" now).2 =
            .appended st.entries.length)) := by
  refine ⟨fun st o now e h1 h2 => addLog_toolOutput_exactKey st o now e h1 h2,
    fun st o now e h1 h2 h3 => addLog_toolOutput_nameFallback st o now e h1 h2 h3,
    fun st o now h1 => ?_⟩
  rw [addLog_toolCall_registers st o now h1]
  simp [List.lookup]

/-- Witness for C1: the spec scenario — a `grep` call at timestamp 1000
already registered, then a matching output merges into entry 0. -/
theorem toolOutput_correlation_policy_witness :
    addStrongSearchLog c1State (.ofObject c1Output) "tool_output" 7 =
      (mergeOutput c1State 0 (jsOrStr c1Output.output_preview "[无输出]"), .merged 0) :=
  toolOutput_correlation_policy.1 c1State c1Output 7 0 (by decide) (by decide)

/-- Claim C2 (failing input): a structured `tool_output` frame that
matches no registered call is NOT appended as a standalone entry — the
formatting switch has no branch for it, the message renders empty, and
the event is silently discarded, leaving the log state unchanged. -/
theorem uncorrelated_toolOutput_discarded :
    addStrongSearchLog emptyLogState
        (.ofObject ⟨some "grep", some 1000, none, some "no matches", true⟩)
        "tool_output" 0 =
      (emptyLogState, .dropped) := by
  decide

set_option maxRecDepth 4000 in
/-- Claim C3: the LogStore container never exceeds 200 entries after any
log mutation; a push beyond capacity evicts exactly the oldest entries one
at a time until the size is 200, preserving the order of the survivors;
and pushing 250 entries into an empty store leaves exactly entries 51-250
(ids 50-249), with entry 51 the oldest survivor. -/
theorem logStore_capacity_fifo :
    (∀ (st : LogState) (m : LogMessage) (lv : String) (now : Nat),
        st.container.length ≤ 200 →
        ((addStrongSearchLog st m lv now).1).container.length ≤ 200) ∧
    (∀ (c : List Nat) (i : Nat),
        logPush c i = List.drop ((c.length + 1) - 200) (c ++ [i]) ∧
        (logPush c i).length = min (c.length + 1) 200) ∧
    ((List.range 250).foldl
        (fun st k => (addStrongSearchLog st (.ofString (toString (k + 1))) "info" 0).1)
        emptyLogState).container = List.drop 50 (List.range 250) := by
  exact ⟨capacity_preserved,
    fun c i => ⟨logPush_eq_drop c i, logPush_length c i⟩,
    by decide⟩

/-- Witness for C3: a single append to the empty store stays within the
capacity bound. -/
theorem logStore_capacity_fifo_witness :
    ((addStrongSearchLog emptyLogState (.ofString "hello") "info" 0).1).container.length
      ≤ 200 :=
  logStore_capacity_fifo.1 emptyLogState (.ofString "hello") "info" 0 (by decide)

/-- Claim C4 (counterexample): invoking the search-send operation from the
Idle state with a valid query does mutate the LogStore — four log entries
are appended (search banner, preparation line, client-id failure, startup
failure) even though the connection attempt fails, and no error is raised
to the caller. -/
theorem startSearch_idle_mutates_logstore :
    ((startStrongSearch idleSession "auth flow"
        { acquire := none, socketOpens := true } 0).1).log.container.length = 4 ∧
    idleSession.log.container.length = 0 := by
  constructor <;> decide

set_option maxHeartbeats 2000000 in
/-- Claim C4 (amended): invoking the search-send operation while the
session is Idle does not fail with an InvalidStateError and is not free of
side effects: the engine appends log entries announcing the search and
attempts the connection handshake itself.  If the handshake fails, the
failure is absorbed into error log entries and the searching flag is
cleared, with no send attempted; if it succeeds, the search frame is sent
on the opened socket.  The search frame is never sent on an unconnected
socket. -/
theorem startSearch_idle_behavior
    (st : SessionState) (query : String) (oracle : ConnectOracle) (now : Nat) (cb : String)
    (hsearch : st.searching = false) (hsock : st.socket = none)
    (hcb : st.codebase = some cb) (hq : jsTrim query ≠ "") :
    (oracle.acquire = none →
      ((startStrongSearch st query oracle now).1.searching = false ∧
       (startStrongSearch st query oracle now).2 = [Event.newClientIdRequest] ∧
       (startStrongSearch st query oracle now).1.log.entries.length =
         st.log.entries.length + 4)) ∧
    (∀ cid, oracle.acquire = some cid → oracle.socketOpens = true →
      ((startStrongSearch st query oracle now).1.searching = true ∧
       (startStrongSearch st query oracle now).2 =
         [Event.newClientIdRequest, Event.wsOpen cid, Event.wsSend cb (jsTrim query)])) ∧
    (∀ cid, oracle.acquire = some cid → oracle.socketOpens = false →
      ((startStrongSearch st query oracle now).1.searching = false ∧
       (startStrongSearch st query oracle now).2 =
         [Event.newClientIdRequest, Event.wsOpen cid] ∧
       (startStrongSearch st query oracle now).1.log.entries.length =
         st.log.entries.length + 4)) := by
  have hsep : ("--------- 新的搜索开始 ---------" : String) ≠ "" := by decide
  have hprep : ("准备开始强效搜索: \"" ++ jsTrim query ++ "\"" : String) ≠ "" := by
    apply append_ne_empty_left
    apply append_ne_empty_left
    decide
  constructor
  · intro haq
    unfold startStrongSearch
    rw [hsearch, hcb]
    simp only [Bool.false_eq_true, if_false, ite_false, if_neg hq]
    unfold connectStrongSearchWebSocket sessionLog startSearchFail updateStrongSearchProgressBar
    rw [haq]
    simp only [hsock]
    simp [sessionLog, addLog_plainString_length, hsep, hprep]
  · constructor
    · intro cid haq hso
      unfold startStrongSearch
      rw [hsearch, hcb]
      simp only [Bool.false_eq_true, if_false, ite_false, if_neg hq]
      unfold connectStrongSearchWebSocket sessionLog updateStrongSearchProgressBar
      rw [haq]
      simp [hsock, hso]
    · intro cid haq hso
      unfold startStrongSearch
      rw [hsearch, hcb]
      simp only [Bool.false_eq_true, if_false, ite_false, if_neg hq]
      unfold connectStrongSearchWebSocket sessionLog startSearchFail updateStrongSearchProgressBar
      rw [haq]
      simp only [hsock, hso]
      simp [sessionLog, addLog_plainString_length, hsep, hprep]

/-- Witness for C4: the failed-handshake case at the concrete idle
session. -/
theorem startSearch_idle_behavior_witness :
    (startStrongSearch idleSession "auth flow"
        { acquire := none, socketOpens := true } 0).1.searching = false ∧
    (startStrongSearch idleSession "auth flow"
        { acquire := none, socketOpens := true } 0).2 = [Event.newClientIdRequest] ∧
    (startStrongSearch idleSession "auth flow"
        { acquire := none, socketOpens := true } 0).1.log.entries.length =
      idleSession.log.entries.length + 4 :=
  (startSearch_idle_behavior idleSession "auth flow"
    { acquire := none, socketOpens := true } 0 "repo1" rfl rfl rfl (by decide)).1 rfl

/-- Claim C5: the displayed percent always equals the rounded clamped
fraction, round(clamp(f, 0, 1) * 100), with no rejection or normalization
of out-of-range or non-monotonic input — the stored percent depends only
on the fraction given; in particular -0.2 displays 0, 1.5 displays 100,
and 0.5 displays 50. -/
theorem progress_display_percent_spec :
    (∀ (st : SessionState) (f : ℚ) (status : String),
        (updateStrongSearchProgressBar st f status).progressPercent = displayPercent f) ∧
    (∀ f : ℚ, displayPercent f = jsRound (min 1 (max 0 f) * 100)) ∧
    displayPercent (-(2 : ℚ) / 10) = 0 ∧
    displayPercent ((15 : ℚ) / 10) = 100 ∧
    displayPercent ((5 : ℚ) / 10) = 50 := by
  exact ⟨fun st f status => rfl, displayPercent_clamp,
    displayPercent_examples.1, displayPercent_examples.2.1, displayPercent_examples.2.2⟩

/-- Claim C6: on a `result` frame the session completes (searching flag
cleared, result view assembled), the batch-content collaborator is asked
for all relevant files in one single request, per-file content renders the
fetched string with a placeholder for any path missing from the contents
map (the failure is isolated to that path), and the aggregation completes
for every batch outcome. -/
theorem result_frame_completes
    (st : SessionState) (r : ResultPayload) (contents : List (String × String))
    (now : Nat) (cb : String) (files : List String)
    (hcb : st.codebase = some cb) (hf : r.relevant_files = some files) (hne : files ≠ []) :
    ((handleStrongSearchWebSocketMessage st (.resultMsg r) (.ok contents) now).1.searching
        = false) ∧
    ((handleStrongSearchWebSocketMessage st (.resultMsg r) (.ok contents) now).2 =
      [Event.batchFetch cb files]) ∧
    (∃ view : ResultView,
      (handleStrongSearchWebSocketMessage st (.resultMsg r) (.ok contents) now).1.resultView
          = some view ∧
      view.files = files ∧
      view.fileContents = files.map (fun f => (f, renderedFileContent contents f))) ∧
    (∀ f, contents.lookup f = none → renderedFileContent contents f = "无法加载内容。") ∧
    (∀ f c, contents.lookup f = some c → c ≠ "" → renderedFileContent contents f = c) ∧
    (∀ b : BatchOutcome,
      ((handleStrongSearchWebSocketMessage st (.resultMsg r) b now).1.resultView).isSome
        = true) := by
  refine ⟨?_, ?_, ?_, ?_, ?_, ?_⟩
  · unfold handleStrongSearchWebSocketMessage displayStrongSearchResult sessionLog
    simp [hf, hne, hcb]
  · unfold handleStrongSearchWebSocketMessage displayStrongSearchResult sessionLog
    simp [hf, hne, hcb]
  · unfold handleStrongSearchWebSocketMessage displayStrongSearchResult sessionLog
    simp [hf, hne, hcb]
  · intro f hl
    unfold renderedFileContent jsOrStr
    rw [hl]
  · intro f c hl hc
    unfold renderedFileContent jsOrStr
    rw [hl]
    simp [hc]
  · intro b
    unfold handleStrongSearchWebSocketMessage displayStrongSearchResult sessionLog
    cases b <;> simp [hf, hne, hcb]

/-- Witness for C6: a concrete result frame with two files, one of which
is missing from the fetched contents. -/
theorem result_frame_completes_witness :
    ((handleStrongSearchWebSocketMessage idleSession (.resultMsg demoResult)
        (.ok demoContents) 0).1.searching = false) ∧
    ((handleStrongSearchWebSocketMessage idleSession (.resultMsg demoResult)
        (.ok demoContents) 0).2 = [Event.batchFetch "repo1" ["a.py", "b.py"]]) ∧
    renderedFileContent demoContents "b.py" = "无法加载内容。" := by
  have h := result_frame_completes idleSession demoResult demoContents 0 "repo1"
    ["a.py", "b.py"] rfl rfl (by decide)
  exact ⟨h.1, h.2.1, h.2.2.2.1 "b.py" (by decide)⟩

/-- Claim C7 (failing input): a structured `tool_call_decision` frame is
deliberately discarded by the formatting switch: it produces no LogStore
record at all and leaves the log state unchanged. -/
theorem toolCallDecision_frame_discarded :
    addStrongSearchLog emptyLogState
        (.ofObject ⟨some "grep", some 1000, some "\x7b\x7d", none, false⟩)
        "tool_call_decision" 0 =
      (emptyLogState, .dropped) := by
  decide

/-- Claim C7 (amended): an inbound log frame produces at least one
LogStore record — merged into an existing tool-call entry or appended as
a standalone entry — exactly when it is not discarded; it is discarded
precisely when its message is an object carrying a truthy tool name at a
level other than `tool_call` that does not correlate as a tool output
(this covers structured `tool_call_decision` frames and uncorrelated
structured `tool_output` frames), or when the message renders to an empty
string. -/
theorem log_frame_recorded_iff (st : LogState) (m : LogMessage) (lv : String) (now : Nat) :
    ((addStrongSearchLog st m lv now).2 = .dropped ↔
      discardsLogFrame st m lv now = true) ∧
    ((addStrongSearchLog st m lv now).2 = .dropped →
      (addStrongSearchLog st m lv now).1 = st) ∧
    (discardsLogFrame st m lv now = false →
      ((∃ e, (addStrongSearchLog st m lv now).2 = .merged e ∧
          (addStrongSearchLog st m lv now).1.container = st.container) ∨
       ((addStrongSearchLog st m lv now).2 = .appended st.entries.length ∧
         (addStrongSearchLog st m lv now).1.container =
           logPush st.container st.entries.length))) := by
  refine ⟨addLog_dropped_iff st m lv now, ?_, ?_⟩
  · intro hd
    rcases addLog_outcome_cases st m lv now with ⟨_, h⟩ | ⟨e, he, _⟩ | ⟨ha, _⟩
    · exact h
    · rw [hd] at he; cases he
    · rw [hd] at ha; cases ha
  · intro hnd
    rcases addLog_outcome_cases st m lv now with ⟨hd, _⟩ | h | h
    · rw [addLog_dropped_iff st m lv now] at hd
      rw [hnd] at hd
      exact absurd hd (by decide)
    · exact Or.inl h
    · exact Or.inr h

/-- Witness for C7: a plain info message is not discarded and is appended
to the container. -/
theorem log_frame_recorded_iff_witness :
    (∃ e, (addStrongSearchLog emptyLogState (.ofString "hello") "info" 0).2 = .merged e ∧
        (addStrongSearchLog emptyLogState (.ofString "hello") "info" 0).1.container =
          emptyLogState.container) ∨
    ((addStrongSearchLog emptyLogState (.ofString "hello") "info" 0).2 =
        .appended emptyLogState.entries.length ∧
      (addStrongSearchLog emptyLogState (.ofString "hello") "info" 0).1.container =
        logPush emptyLogState.container emptyLogState.entries.length) :=
  (log_frame_recorded_iff emptyLogState (.ofString "hello") "info" 0).2.2 (by decide)

/-- Claim C8: the persistent connection is never opened without a client
id obtained first: in every execution of the connect operation, a socket
opening for id `cid` implies the id request succeeded with exactly `cid`
and strictly preceded the opening in the event trace; and if acquisition
fails, no socket is ever created. -/
theorem connect_requires_clientId (st : SessionState) (oracle : ConnectOracle) (now : Nat) :
    (oracle.acquire = none →
      ∀ cid, Event.wsOpen cid ∉ (connectStrongSearchWebSocket st oracle now).2.1) ∧
    (∀ i cid,
      (connectStrongSearchWebSocket st oracle now).2.1.get? i = some (Event.wsOpen cid) →
      oracle.acquire = some cid ∧
      ∃ j, j < i ∧
        (connectStrongSearchWebSocket st oracle now).2.1.get? j =
          some Event.newClientIdRequest) := by
  unfold connectStrongSearchWebSocket
  by_cases hopen : st.socket = some ReadyState.OPEN
  · simp [hopen]
  · rcases haq : oracle.acquire with _ | cid
    · constructor
      · intro _ cid
        simp [hopen, haq]
      · intro i cid hget
        simp only [hopen, haq, if_neg, ite_false] at hget
        match i with
        | 0 => simp [hopen, haq] at hget
        | n + 1 => simp [hopen, haq] at hget
    · constructor
      · intro hnone
        simp at hnone
      · intro i cid' hget
        by_cases hso : oracle.socketOpens = true
        · simp only [hopen, haq, hso, if_neg, ite_false, ite_true] at hget ⊢
          match i with
          | 0 => simp at hget
          | 1 =>
              simp at hget
              subst hget
              exact ⟨rfl, 0, by omega, rfl⟩
          | n + 2 => simp at hget
        · simp only [hopen, haq, hso, if_neg, ite_false, Bool.not_eq_true] at hget ⊢
          match i with
          | 0 => simp at hget
          | 1 =>
              simp at hget
              subst hget
              exact ⟨rfl, 0, by omega, rfl⟩
          | n + 2 => simp at hget

/-- Witness for C8: a successful handshake from the idle session opens the
socket at trace position 1, after the id request at position 0. -/
theorem connect_requires_clientId_witness :
    ({ acquire := some "abc123", socketOpens := true } : ConnectOracle).acquire
        = some "abc123" ∧
    ∃ j, j < 1 ∧
      (connectStrongSearchWebSocket idleSession
          { acquire := some "abc123", socketOpens := true } 0).2.1.get? j =
        some Event.newClientIdRequest :=
  (connect_requires_clientId idleSession
    { acquire := some "abc123", socketOpens := true } 0).2 1 "abc123" (by decide)

/-- Claim C9: stopping while searching closes the transport, clears the
searching flag, marks the connection disconnected, and resets the
displayed progress to 0. -/
theorem stop_mid_search (st : SessionState) (now : Nat) (rs : ReadyState)
    (hs : st.searching = true) (hsock : st.socket = some rs) :
    (stopStrongSearch st now).1.searching = false ∧
    (stopStrongSearch st now).1.socket = none ∧
    (stopStrongSearch st now).2 = [Event.wsClose] ∧
    (stopStrongSearch st now).1.progressPercent = 0 ∧
    (stopStrongSearch st now).1.connStatus = "disconnected" := by
  unfold stopStrongSearch sessionLog disconnectStrongSearchWebSocket updateStrongSearchProgressBar
  simp [hs, hsock, displayPercent_zero]

/-- Witness for C9: stopping the concrete searching session. -/
theorem stop_mid_search_witness :
    (stopStrongSearch searchingSession 0).1.searching = false ∧
    (stopStrongSearch searchingSession 0).1.socket = none ∧
    (stopStrongSearch searchingSession 0).2 = [Event.wsClose] ∧
    (stopStrongSearch searchingSession 0).1.progressPercent = 0 ∧
    (stopStrongSearch searchingSession 0).1.connStatus = "disconnected" :=
  stop_mid_search searchingSession 0 ReadyState.OPEN rfl rfl

/-- Claim C10: invoking connect while the socket is already open is
idempotent: it returns success immediately with an empty event trace — no
new client id is requested, no second socket is created — and the session
state is completely unchanged (the session holds at most one socket). -/
theorem connect_idempotent_open (st : SessionState) (oracle : ConnectOracle) (now : Nat)
    (h : st.socket = some ReadyState.OPEN) :
    connectStrongSearchWebSocket st oracle now = (st, [], .ok) := by
  unfold connectStrongSearchWebSocket
  simp [h]

/-- Witness for C10: reconnecting the concrete open session is a no-op. -/
theorem connect_idempotent_open_witness :
    connectStrongSearchWebSocket searchingSession
        { acquire := none, socketOpens := false } 0 =
      (searchingSession, [], ConnectResult.ok) :=
  connect_idempotent_open searchingSession { acquire := none, socketOpens := false } 0 rfl
